import Mathlib

/-!
Verification of the `amo-cli` download-page generators
(`.github/scripts/generate-download-page.py` and
`.github/scripts/generate-download-page-zh.py`).

Strings are modelled as `List Char`; Python text operations
(`in`, `str.replace`, `str.split`, `str.strip`, `str.endswith`) are embedded
as executable functions on `List Char`.  The float arithmetic inside
`get_file_size` is modelled over `ℚ`: every division performed by the script
is by the power of two `1024`, so in the range relevant to the statements
below the Python float computation is exact and agrees with `ℚ`.
-/

set_option maxRecDepth 20000

abbrev Str := List Char

def sl (s : String) : Str := s.toList

/-! ### Python `str.replace` (replaces every non-overlapping occurrence,
scanning left to right, continuing after each replacement).
Fuel-indexed so that the definition is structurally recursive. -/

def replaceF (pat rep : Str) : ℕ → Str → Str
  | 0, s => s
  | fuel + 1, s =>
    match s with
    | [] => []
    | c :: s' =>
      if pat ≠ [] ∧ pat <+: (c :: s') then
        rep ++ replaceF pat rep fuel ((c :: s').drop pat.length)
      else
        c :: replaceF pat rep fuel s'

/-- Embedding of Python `s.replace(pat, rep)` (for the nonempty patterns the
scripts use). -/
def replaceAll (s pat rep : Str) : Str := replaceF pat rep s.length s

theorem replaceF_fuel (pat rep : Str) (hp : pat ≠ []) :
    ∀ f s, s.length ≤ f → replaceF pat rep f s = replaceF pat rep s.length s := by
  intro f
  induction f using Nat.strong_induction_on with
  | _ f ih =>
    intro s hs
    match f, s with
    | f, [] => cases f <;> rfl
    | 0, c :: s' => simp at hs
    | f + 1, c :: s' =>
      have hpat : 1 ≤ pat.length := by
        cases pat with
        | nil => exact absurd rfl hp
        | cons p ps => simp
      have hdroplen : ((c :: s').drop pat.length).length = s'.length + 1 - pat.length := by
        simp [List.length_drop]
      simp only [replaceF]
      by_cases h : pat ≠ [] ∧ pat <+: (c :: s')
      · rw [if_pos h, if_pos h]
        congr 1
        rw [ih f (Nat.lt_succ_self f) _ (by simp at hs; omega),
          ih s'.length (by simp at hs ⊢; omega) _ (by omega)]
      · rw [if_neg h, if_neg h]
        congr 1
        rw [ih f (Nat.lt_succ_self f) s' (by simp at hs; omega)]

theorem replaceAll_cons_pos (pat rep : Str) (c : Char) (s' : Str)
    (hp : pat ≠ []) (h : pat <+: (c :: s')) :
    replaceAll (c :: s') pat rep = rep ++ replaceAll ((c :: s').drop pat.length) pat rep := by
  have hpat : 1 ≤ pat.length := by
    cases pat with
    | nil => exact absurd rfl hp
    | cons p ps => simp
  unfold replaceAll
  simp only [List.length_cons, replaceF]
  rw [if_pos ⟨hp, h⟩]
  congr 1
  rw [replaceF_fuel pat rep hp s'.length _ (by simp [List.length_drop]; omega)]

theorem replaceAll_cons_neg (pat rep : Str) (c : Char) (s' : Str)
    (h : ¬ pat <+: (c :: s')) :
    replaceAll (c :: s') pat rep = c :: replaceAll s' pat rep := by
  unfold replaceAll
  simp only [List.length_cons, replaceF]
  rw [if_neg (fun hand => h hand.2)]

theorem widenPre {l1 l2 : Str} (h : l1 <+: l2) : l1 <:+: l2 := by
  obtain ⟨t, rfl⟩ := h
  exact ⟨[], t, by simp⟩

theorem widenSuf {l1 l2 : Str} (h : l1 <:+ l2) : l1 <:+: l2 := by
  obtain ⟨t, rfl⟩ := h
  exact ⟨t, [], by simp⟩

theorem replaceAll_absent (pat rep s : Str) (hp : pat ≠ [])
    (h : ¬ pat <:+: s) : replaceAll s pat rep = s := by
  induction s with
  | nil => rfl
  | cons c s' ih =>
    rw [replaceAll_cons_neg pat rep c s' (fun hpre => h (widenPre hpre))]
    rw [ih (fun hin => h (List.infix_cons hin))]

theorem replaceAll_append (pat rep : Str) (hp : pat ≠ []) :
    ∀ a b : Str, (∀ i, i < a.length → ¬ pat <+: ((a ++ (pat ++ b)).drop i)) →
    replaceAll (a ++ pat ++ b) pat rep = a ++ rep ++ replaceAll b pat rep := by
  intro a
  induction a with
  | nil =>
    intro b _
    simp only [List.nil_append]
    cases pat with
    | nil => exact absurd rfl hp
    | cons p ps =>
      rw [List.cons_append, replaceAll_cons_pos (p :: ps) rep p (ps ++ b) (by simp)
        (by rw [← List.cons_append]; exact List.prefix_append _ _)]
      rw [← List.cons_append, List.drop_left]
  | cons c a' ih =>
    intro b ha
    have h0 : ¬ pat <+: (c :: (a' ++ (pat ++ b))) := by
      have := ha 0 (by simp)
      simpa using this
    rw [List.cons_append, List.cons_append, List.append_assoc,
      replaceAll_cons_neg pat rep c (a' ++ (pat ++ b)) h0]
    rw [← List.append_assoc, ih b (fun i hi => by
      have := ha (i + 1) (by simp; omega)
      simpa using this)]
    simp

/-- Pattern `pat` has no nonempty proper border (prefix that is also a suffix).
All four placeholder tokens and `".sha256"` satisfy this, which rules out
occurrences straddling a known occurrence. -/
def borderFree (pat : Str) : Prop :=
  ∀ j, j < pat.length → 0 < j → pat.take j ≠ pat.drop (pat.length - j)

instance (pat : Str) : Decidable (borderFree pat) :=
  inferInstanceAs
    (Decidable (∀ j, j < pat.length → 0 < j → pat.take j ≠ pat.drop (pat.length - j)))

theorem no_occ_glue (pat a b : Str) (hb : borderFree pat) (hp : pat ≠ [])
    (hpa : ¬ pat <:+: a) :
    ∀ i, i < a.length → ¬ pat <+: ((a ++ (pat ++ b)).drop i) := by
  intro i hi hpre
  rw [List.drop_append_of_le_length (le_of_lt hi)] at hpre
  have hklen : (a.drop i).length = a.length - i := by simp [List.length_drop]
  by_cases hlen : pat.length ≤ (a.drop i).length
  · have hpref : pat <+: a.drop i :=
      List.prefix_of_prefix_length_le hpre (List.prefix_append _ _) hlen
    exact hpa (List.IsInfix.trans (widenPre hpref) (widenSuf (List.drop_suffix i a)))
  · push_neg at hlen
    set k := (a.drop i).length with hk
    have hk0 : 0 < k := by omega
    obtain ⟨t, ht⟩ := hpre
    have hdrop : pat.drop k ++ t = pat ++ b := by
      have := congrArg (List.drop k) ht
      rwa [List.drop_append_of_le_length (le_of_lt hlen), hk, List.drop_left] at this
    have h1 : pat.drop k <+: pat ++ b := ⟨t, hdrop⟩
    have h2 : pat.drop k <+: pat :=
      List.prefix_of_prefix_length_le h1 (List.prefix_append pat b)
        (by simp [List.length_drop])
    have h3 : pat.drop k = pat.take (pat.length - k) := by
      have := List.prefix_iff_eq_take.mp h2
      simpa [List.length_drop] using this
    have h4 : pat.length - (pat.length - k) = k := by omega
    exact hb (pat.length - k) (by omega) (by omega) (by rw [h3.symm, h4])

/-- The number of positions at which `pat` occurs in `t`. -/
def occCount (t pat : Str) : ℕ :=
  ((List.range (t.length + 1)).filter (fun i => decide (pat <+: t.drop i))).length

/-! ### Python `str.strip`, `str.split()` (whitespace), `os.path.basename` -/

def pyStrip (s : Str) : Str :=
  ((s.dropWhile Char.isWhitespace).reverse.dropWhile Char.isWhitespace).reverse

/-- Python split: `s.split()`: split on runs of whitespace, dropping empty pieces. -/
def pySplit (s : Str) : List Str :=
  (s.foldr
    (fun c acc =>
      if c.isWhitespace then [] :: acc
      else
        match acc with
        | [] => [[c]]
        | w :: ws => (c :: w) :: ws)
    []).filter (fun w => !w.isEmpty)

/-- The first line of a text (used only to state what the spec claims about
checksum parsing). -/
def firstLine (s : Str) : Str := s.takeWhile (fun c => c != '\n')

/-- Embedding of `os.path.basename` for the slash-separated names the script handles. -/
def basename (s : Str) : Str :=
  s.foldl (fun acc c => if c = '/' then [] else acc ++ [c]) []

/-! ### `get_file_size` (both scripts): repeated division by 1024 over the
unit list `['B', 'KB', 'MB', 'GB']` with a final `'TB'` fallback.  The value
is modelled in `ℚ`; the pair holds the scaled numeric value and the chosen
unit, and `formatSize` renders it to one decimal place as `f"{size:.1f}{unit}"`
does (round to nearest, ties to even). -/

def sizeUnits : List Str := [sl "B", sl "KB", sl "MB", sl "GB"]

def getFileSizeAux : ℚ → List Str → ℚ × Str
  | size, [] => (size, sl "TB")
  | size, u :: us => if size < 1024 then (size, u) else getFileSizeAux (size / 1024) us

def getFileSize (n : ℕ) : ℚ × Str := getFileSizeAux (n : ℚ) sizeUnits

/-- Index of the unit the loop stops at, as a function of the byte count. -/
def unitIdx (n : ℕ) : ℕ :=
  if n < 1024 then 0
  else if n < 1024 ^ 2 then 1
  else if n < 1024 ^ 3 then 2
  else if n < 1024 ^ 4 then 3
  else 4

def unitName : ℕ → Str
  | 0 => sl "B"
  | 1 => sl "KB"
  | 2 => sl "MB"
  | 3 => sl "GB"
  | _ => sl "TB"

/-- Round `10 * q` to the nearest integer, ties to even (the rounding of
Python float formatting; exact here since the script's values are dyadic). -/
def r10 (q : ℚ) : ℤ :=
  let f := ⌊10 * q⌋
  let r := 10 * q - f
  if r < 1 / 2 then f else if 1 / 2 < r then f + 1 else if 2 ∣ f then f else f + 1

def fmt1 (q : ℚ) : Str :=
  let t := (r10 q).toNat
  sl (Nat.repr (t / 10)) ++ sl "." ++ sl (Nat.repr (t % 10))

def formatSize (n : ℕ) : Str := fmt1 (getFileSize n).1 ++ (getFileSize n).2

/-! ### `get_arch_info` (English and Chinese variants).  The `_core` function
is the value of the `if`/`elif` chain: `none` models "no `return` executed in
the chain", after which control reaches the final `return 'Unknown'`. -/

def get_arch_info_core (filename : Str) : Option Str :=
  if sl "amd64" <:+: filename then
    if sl "linux" <:+: filename then some (sl "64-bit")
    else if sl "darwin" <:+: filename then some (sl "Intel")
    else if sl "windows" <:+: filename then some (sl "64-bit")
    else none
  else if sl "arm64" <:+: filename then
    if sl "linux" <:+: filename then some (sl "ARM64")
    else if sl "darwin" <:+: filename then some (sl "Apple Silicon")
    else none
  else if sl "armv7" <:+: filename then some (sl "ARMv7")
  else none

def get_arch_info (filename : Str) : Str :=
  (get_arch_info_core filename).getD (sl "Unknown")

def get_arch_info_core_zh (filename : Str) : Option Str :=
  if sl "amd64" <:+: filename then
    if sl "linux" <:+: filename then some (sl "64位")
    else if sl "darwin" <:+: filename then some (sl "Intel")
    else if sl "windows" <:+: filename then some (sl "64位")
    else none
  else if sl "arm64" <:+: filename then
    if sl "linux" <:+: filename then some (sl "ARM64")
    else if sl "darwin" <:+: filename then some (sl "Apple Silicon")
    else none
  else if sl "armv7" <:+: filename then some (sl "ARMv7")
  else none

def get_arch_info_zh (filename : Str) : Str :=
  (get_arch_info_core_zh filename).getD (sl "未知")

/-! ### Placeholder tokens and template rendering (`main`, lines 141-144). -/

def tokTag : Str := sl "\x7b\x7bTAG_NAME\x7d\x7d"

def tokRel : Str := sl "\x7b\x7bRELEASE_NAME\x7d\x7d"

def tokDl : Str := sl "\x7b\x7bDOWNLOAD_SECTIONS\x7d\x7d"

def tokCk : Str := sl "\x7b\x7bCHECKSUMS\x7d\x7d"

/-- The four sequential `content.replace(...)` calls of `main`, in source
order. -/
def render (t tag rel dl ck : Str) : Str :=
  replaceAll (replaceAll (replaceAll (replaceAll t tokTag tag) tokRel rel) tokDl dl) tokCk ck

example : replaceAll (sl "a.sha256.tar.sha256") (sl ".sha256") [] = sl "a.tar" := by decide

example : borderFree (sl ".sha256") := by decide

example : borderFree tokTag := by decide

example : get_arch_info (sl "amo_linux_darwin_amd64") = sl "64-bit" := by decide

example : get_arch_info (sl "amo_amd64") = sl "Unknown" := by decide

example : pySplit (pyStrip (sl "  abcd1234 amo_linux_amd64\n")) =
    [sl "abcd1234", sl "amo_linux_amd64"] := by decide

/-! ### Filesystem model.  `Dir.files` lists the regular files of the working
directory, in the order directory enumeration (`glob.glob`) yields them;
`size f` is `os.path.getsize f` (`none` = stat failure), `content f` a
successful text read of `f` (`none` = read error). -/

structure Dir where
  files : List Str
  size : Str → Option ℕ
  content : Str → Option Str

/-- Embedding of `glob.glob` for the patterns the scripts use, all of the shape
`pre*` or `pre*suf`: a name matches when it starts with `pre`, ends with
`suf`, and is long enough for the two parts not to overlap. -/
def globMatch (d : Dir) (pre suf : Str) : List Str :=
  d.files.filter (fun n =>
    decide (pre <+: n) && decide (suf <:+ n) &&
    decide (pre.length + suf.length ≤ n.length))

def get_file_size_str (d : Dir) (f : Str) : Str :=
  match d.size f with
  | some n => formatSize n
  | none => sl "Unknown"

def get_file_size_str_zh (d : Dir) (f : Str) : Str :=
  match d.size f with
  | some n => formatSize n
  | none => sl "未知"

/-- The list comprehension of `generate_platform_section`.  (`Dir.files`
holds only regular files, so the `os.path.isfile` conjunct of the
comprehension is identically true in this model.) -/
def platformFiles (d : Dir) (pre suf : Str) : List Str :=
  (globMatch d pre suf).filter (fun f => !(decide (sl ".sha256" <:+ f)))

def platformHeader (platform_name platform_icon : Str) : Str :=
  sl "                <div class=\"platform-card\">\n                    <h3><span class=\"platform-icon\">" ++
    platform_icon ++ sl "</span>" ++ platform_name ++ sl "</h3>"

def platformFooter : Str := sl "\n                </div>"

/-- The text the `for filepath in files` loop appends for one file: a
download link labelled with the bare filename and a caption combining the
architecture label and the formatted size. -/
def fileInfoHTML (d : Dir) (filepath : Str) : Str :=
  sl "\n                    <a href=\"" ++ basename filepath ++
    sl "\" class=\"download-link\">" ++ basename filepath ++
    sl "</a>\n                    <div class=\"file-info\">" ++
    get_arch_info (basename filepath) ++ sl " • " ++
    get_file_size_str d filepath ++ sl "</div>"

def fileInfoHTML_zh (d : Dir) (filepath : Str) : Str :=
  sl "\n                    <a href=\"" ++ basename filepath ++
    sl "\" class=\"download-link\">" ++ basename filepath ++
    sl "</a>\n                    <div class=\"file-info\">" ++
    get_arch_info_zh (basename filepath) ++ sl " • " ++
    get_file_size_str_zh d filepath ++ sl "</div>"

def generate_platform_section (d : Dir) (platform_name platform_icon pre suf : Str) : Str :=
  let files := platformFiles d pre suf
  if files = [] then []
  else
    (files.foldl (fun acc f => acc ++ fileInfoHTML d f)
      (platformHeader platform_name platform_icon)) ++ platformFooter

def generate_platform_section_zh (d : Dir) (platform_name platform_icon pre suf : Str) : Str :=
  let files := platformFiles d pre suf
  if files = [] then []
  else
    (files.foldl (fun acc f => acc ++ fileInfoHTML_zh d f)
      (platformHeader platform_name platform_icon)) ++ platformFooter

/-! ### `generate_checksums_section` (identical in both scripts). -/

def checksumHTML (binary_name checksum : Str) : Str :=
  sl "\n                <div class=\"checksum-item\">\n                    <div class=\"checksum-filename\">" ++
    binary_name ++ sl "</div>\n                    <div class=\"checksum-hash\">" ++
    checksum ++ sl "</div>\n                </div>"

/-- Body of the `for sha_file in sha_files` loop: what this iteration appends
to `checksums` (empty when the entry is skipped).  `binary_name` is
`sha_file.replace('.sha256', '')`; the hash is
`f.read().strip().split()[0]`, where a read error or an empty token list
raises and is swallowed by the bare `except: continue`. -/
def checksumEntry (d : Dir) (sha_file : Str) : Str :=
  let binary_name := replaceAll sha_file (sl ".sha256") []
  if binary_name ∈ d.files then
    match (d.content sha_file).bind (fun txt => (pySplit (pyStrip txt)).head?) with
    | some checksum => checksumHTML binary_name checksum
    | none => []
  else []

/-- Embedding of `glob.glob("*.sha256")` in this model. -/
def shaFiles (d : Dir) : List Str :=
  d.files.filter (fun n => decide (sl ".sha256" <:+ n))

def generate_checksums_section (d : Dir) : Str :=
  if shaFiles d = [] then []
  else (shaFiles d).foldl (fun acc sha => acc ++ checksumEntry d sha) []

def generate_checksums_section_zh (d : Dir) : Str :=
  if shaFiles d = [] then []
  else (shaFiles d).foldl (fun acc sha => acc ++ checksumEntry d sha) []

/-! ### `main` of both scripts. -/

inductive ReadResult where
  | ok (content : Str)
  | fileNotFound
  | otherError
deriving DecidableEq

/-- One invocation's observable inputs: `sys.argv` (element 0 is the program
name), the result of reading the template file (`fileNotFound` raises the
caught `FileNotFoundError`; `otherError` any other `OSError`, e.g. a
permission failure on an existing file), and the working directory. -/
structure World where
  argv : List Str
  template : ReadResult
  dir : Dir

/-- Observable outcome of one invocation: process exit code together with the
output file written (path, content), or an exception escaping `main`. -/
inductive Outcome where
  | exits (code : ℕ) (wrote : Option (Str × Str))
  | uncaught
deriving DecidableEq

def download_sections (d : Dir) : Str :=
  generate_platform_section d (sl "Linux") (sl "🐧") (sl "amo_linux_") [] ++
  generate_platform_section d (sl "macOS") (sl "🍎") (sl "amo_darwin_") [] ++
  generate_platform_section d (sl "Windows") (sl "🪟") (sl "amo_windows_") (sl ".exe")

def download_sections_zh (d : Dir) : Str :=
  generate_platform_section_zh d (sl "Linux") (sl "🐧") (sl "amo_linux_") [] ++
  generate_platform_section_zh d (sl "macOS") (sl "🍎") (sl "amo_darwin_") [] ++
  generate_platform_section_zh d (sl "Windows") (sl "🪟") (sl "amo_windows_") (sl ".exe")

def pymain (w : World) : Outcome :=
  if w.argv.length ≠ 4 then .exits 1 none
  else
    match w.template with
    | .fileNotFound => .exits 1 none
    | .otherError => .uncaught
    | .ok content =>
      .exits 0 (some (sl "index.html",
        render content (w.argv.getD 2 []) (w.argv.getD 3 [])
          (download_sections w.dir) (generate_checksums_section w.dir)))

def pymain_zh (w : World) : Outcome :=
  if w.argv.length ≠ 4 then .exits 1 none
  else
    match w.template with
    | .fileNotFound => .exits 1 none
    | .otherError => .uncaught
    | .ok content =>
      .exits 0 (some (sl "zh/index.html",
        render content (w.argv.getD 2 []) (w.argv.getD 3 [])
          (download_sections_zh w.dir) (generate_checksums_section_zh w.dir)))

/-! ### The spec's unified locale-parameterized generator (for the
refinement claim).  Spec §2/§9: the two scripts are instances of one
generator differing only in placeholder microcopy and output subdirectory.
These definitions follow the spec's words; the refinement theorem shows each
script equals an instantiation. -/

structure PageLocale where
  label64 : Str
  unknownArch : Str
  unknownSize : Str
  outPath : Str

def get_arch_info_core_loc (loc : PageLocale) (filename : Str) : Option Str :=
  if sl "amd64" <:+: filename then
    if sl "linux" <:+: filename then some loc.label64
    else if sl "darwin" <:+: filename then some (sl "Intel")
    else if sl "windows" <:+: filename then some loc.label64
    else none
  else if sl "arm64" <:+: filename then
    if sl "linux" <:+: filename then some (sl "ARM64")
    else if sl "darwin" <:+: filename then some (sl "Apple Silicon")
    else none
  else if sl "armv7" <:+: filename then some (sl "ARMv7")
  else none

def get_arch_info_loc (loc : PageLocale) (filename : Str) : Str :=
  (get_arch_info_core_loc loc filename).getD loc.unknownArch

def get_file_size_str_loc (loc : PageLocale) (d : Dir) (f : Str) : Str :=
  match d.size f with
  | some n => formatSize n
  | none => loc.unknownSize

def fileInfoHTML_loc (loc : PageLocale) (d : Dir) (filepath : Str) : Str :=
  sl "\n                    <a href=\"" ++ basename filepath ++
    sl "\" class=\"download-link\">" ++ basename filepath ++
    sl "</a>\n                    <div class=\"file-info\">" ++
    get_arch_info_loc loc (basename filepath) ++ sl " • " ++
    get_file_size_str_loc loc d filepath ++ sl "</div>"

def generate_platform_section_loc (loc : PageLocale) (d : Dir)
    (platform_name platform_icon pre suf : Str) : Str :=
  let files := platformFiles d pre suf
  if files = [] then []
  else
    (files.foldl (fun acc f => acc ++ fileInfoHTML_loc loc d f)
      (platformHeader platform_name platform_icon)) ++ platformFooter

def download_sections_loc (loc : PageLocale) (d : Dir) : Str :=
  generate_platform_section_loc loc d (sl "Linux") (sl "🐧") (sl "amo_linux_") [] ++
  generate_platform_section_loc loc d (sl "macOS") (sl "🍎") (sl "amo_darwin_") [] ++
  generate_platform_section_loc loc d (sl "Windows") (sl "🪟") (sl "amo_windows_") (sl ".exe")

def pymain_loc (loc : PageLocale) (w : World) : Outcome :=
  if w.argv.length ≠ 4 then .exits 1 none
  else
    match w.template with
    | .fileNotFound => .exits 1 none
    | .otherError => .uncaught
    | .ok content =>
      .exits 0 (some (loc.outPath,
        render content (w.argv.getD 2 []) (w.argv.getD 3 [])
          (download_sections_loc loc w.dir) (generate_checksums_section w.dir)))

def enLocale : PageLocale :=
  ⟨sl "64-bit", sl "Unknown", sl "Unknown", sl "index.html"⟩

def zhLocale : PageLocale :=
  ⟨sl "64位", sl "未知", sl "未知", sl "zh/index.html"⟩

theorem foldl_append_eq {α : Type} (f : α → Str) :
    ∀ (l : List α) (init : Str),
      l.foldl (fun acc x => acc ++ f x) init = init ++ (l.map f).flatten := by
  intro l
  induction l with
  | nil => intro init; simp
  | cons x xs ih => intro init; simp [ih, List.append_assoc]

/-! ### Facts about `get_file_size` -/

theorem qdiv_lt_iff (n k : ℕ) : ((n : ℚ) / 1024 ^ k < 1024) ↔ n < 1024 ^ (k + 1) := by
  rw [div_lt_iff (by positivity), ← pow_succ']
  exact_mod_cast Iff.rfl

theorem getFileSize_eq (n : ℕ) :
    getFileSize n = ((n : ℚ) / 1024 ^ unitIdx n, unitName (unitIdx n)) := by
  have e1 : (n : ℚ) / 1024 = (n : ℚ) / 1024 ^ 1 := by rw [pow_one]
  have e2 : (n : ℚ) / 1024 / 1024 = (n : ℚ) / 1024 ^ 2 := by rw [div_div]; norm_num
  have e3 : (n : ℚ) / 1024 / 1024 / 1024 = (n : ℚ) / 1024 ^ 3 := by
    rw [div_div, div_div]; norm_num
  have e4 : (n : ℚ) / 1024 / 1024 / 1024 / 1024 = (n : ℚ) / 1024 ^ 4 := by
    rw [div_div, div_div, div_div]; norm_num
  have c0 : ((n : ℚ) < 1024) ↔ n < 1024 := by exact_mod_cast Iff.rfl
  have c1 : ((n : ℚ) / 1024 < 1024) ↔ n < 1024 ^ 2 := by rw [e1, qdiv_lt_iff]
  have c2 : ((n : ℚ) / 1024 / 1024 < 1024) ↔ n < 1024 ^ 3 := by rw [e2, qdiv_lt_iff]
  have c3 : ((n : ℚ) / 1024 / 1024 / 1024 < 1024) ↔ n < 1024 ^ 4 := by
    rw [e3, qdiv_lt_iff]
  unfold getFileSize sizeUnits unitIdx
  simp only [getFileSizeAux]
  by_cases h0 : n < 1024
  · rw [if_pos (c0.mpr h0), if_pos h0]
    simp [unitName]
  · rw [if_neg (fun h => h0 (c0.mp h)), if_neg h0]
    by_cases h1 : n < 1024 ^ 2
    · rw [if_pos (c1.mpr h1), if_pos h1, e1]
      simp [unitName]
    · rw [if_neg (fun h => h1 (c1.mp h)), if_neg h1]
      by_cases h2 : n < 1024 ^ 3
      · rw [if_pos (c2.mpr h2), if_pos h2, e2]
        simp [unitName]
      · rw [if_neg (fun h => h2 (c2.mp h)), if_neg h2]
        by_cases h3 : n < 1024 ^ 4
        · rw [if_pos (c3.mpr h3), if_pos h3, e3]
          simp [unitName]
        · rw [if_neg (fun h => h3 (c3.mp h)), if_neg h3, e4]
          simp [unitName]

theorem unitIdx_mono {n m : ℕ} (h : n ≤ m) : unitIdx n ≤ unitIdx m := by
  have p2 : (1024 : ℕ) ^ 2 = 1048576 := by norm_num
  have p3 : (1024 : ℕ) ^ 3 = 1073741824 := by norm_num
  have p4 : (1024 : ℕ) ^ 4 = 1099511627776 := by norm_num
  unfold unitIdx
  simp only [p2, p3, p4]
  split_ifs <;> omega

theorem le_of_lt_unitIdx {n k : ℕ} (h : k < unitIdx n) : 1024 ^ (k + 1) ≤ n := by
  have p2 : (1024 : ℕ) ^ 2 = 1048576 := by norm_num
  have p3 : (1024 : ℕ) ^ 3 = 1073741824 := by norm_num
  have p4 : (1024 : ℕ) ^ 4 = 1099511627776 := by norm_num
  have p5 : (1024 : ℕ) ^ 5 = 1125899906842624 := by norm_num
  unfold unitIdx at h
  simp only [p2, p3, p4] at h
  split_ifs at h with h0 h1 h2 h3
  · omega
  all_goals (interval_cases k <;> norm_num at * <;> omega)

theorem lt_pow_unitIdx_succ {n : ℕ} (h5 : n < 1024 ^ 5) : n < 1024 ^ (unitIdx n + 1) := by
  have p2 : (1024 : ℕ) ^ 2 = 1048576 := by norm_num
  have p3 : (1024 : ℕ) ^ 3 = 1073741824 := by norm_num
  have p4 : (1024 : ℕ) ^ 4 = 1099511627776 := by norm_num
  have p5 : (1024 : ℕ) ^ 5 = 1125899906842624 := by norm_num
  unfold unitIdx
  split_ifs with h0 h1 h2 h3 <;> norm_num at * <;> omega

theorem fmt1_natCast (m : ℕ) : fmt1 (m : ℚ) = sl (Nat.repr m) ++ sl "." ++ sl "0" := by
  have h10 : (10 : ℚ) * (m : ℚ) = ((10 * m : ℕ) : ℚ) := by push_cast; ring
  simp only [fmt1, r10, h10, Int.floor_natCast]
  rw [if_pos (by norm_num : ((10 * m : ℕ) : ℚ) - (((10 * m : ℕ) : ℤ) : ℚ) < 1 / 2)]
  have ht : ((10 * m : ℕ) : ℤ).toNat = 10 * m := by omega
  rw [ht]
  have hd : 10 * m / 10 = m := by omega
  have hm : 10 * m % 10 = 0 := by omega
  rw [hd, hm]
  rfl

theorem formatSize_lt1024 (n : ℕ) (h : n < 1024) :
    formatSize n = sl (Nat.repr n) ++ sl "." ++ sl "0" ++ sl "B" := by
  unfold formatSize
  have hi : unitIdx n = 0 := by unfold unitIdx; rw [if_pos h]
  rw [getFileSize_eq n, hi]
  simp only [pow_zero, div_one, unitName]
  rw [fmt1_natCast]

/-! ## Claim C1: file-size formatting -/

/-- Claim C1, counterexample.  At `n = 1024 ^ 5` bytes the loop exhausts the
unit list and returns the `TB` fallback with numeric part exactly `1024`:
no unit in {B, KB, MB, GB, TB} gives a scaled value below 1024, and the
numeric part is not in `[0, 1024)`. -/
theorem c1_counterexample :
    (getFileSize (1024 ^ 5)).1 = 1024 ∧
    ¬ (getFileSize (1024 ^ 5)).1 < 1024 ∧
    (getFileSize (1024 ^ 5)).2 = sl "TB" := by
  have hidx : unitIdx (1024 ^ 5) = 4 := by unfold unitIdx; norm_num
  have h := getFileSize_eq (1024 ^ 5)
  rw [hidx] at h
  have hv : ((1024 ^ 5 : ℕ) : ℚ) / 1024 ^ 4 = 1024 := by push_cast; norm_num
  rw [h]
  simp [unitName]
  norm_num

/-- Claim C1, amended.  `get_file_size` scales the byte count by successive
division by 1024; for `n < 1024 ^ 5` the chosen unit is the largest of
B, KB, MB, GB, TB whose scaled value is below 1024 and the numeric part lies
in `[0, 1024)`; the numeric part is always nonnegative, every smaller unit
scales to at least 1024, the chosen unit is monotonically non-decreasing in
`n`, and the output string is the numeric part formatted to one decimal
place followed by the unit.  (For `n ≥ 1024 ^ 5` the unit is the `TB`
fallback and the numeric part is `≥ 1024`, as the counterexample shows.) -/
theorem c1_file_size_formatting (n : ℕ) :
    getFileSize n = ((n : ℚ) / 1024 ^ unitIdx n, unitName (unitIdx n)) ∧
    0 ≤ (getFileSize n).1 ∧
    (∀ k, k < unitIdx n → ¬ ((n : ℚ) / 1024 ^ k < 1024)) ∧
    (n < 1024 ^ 5 → (getFileSize n).1 < 1024) ∧
    (∀ m, n ≤ m → unitIdx n ≤ unitIdx m) ∧
    formatSize n = fmt1 (getFileSize n).1 ++ (getFileSize n).2 := by
  refine ⟨getFileSize_eq n, ?_, ?_, ?_, fun m hm => unitIdx_mono hm, rfl⟩
  · rw [getFileSize_eq n]
    positivity
  · intro k hk
    rw [qdiv_lt_iff]
    have := le_of_lt_unitIdx hk
    omega
  · intro h5
    rw [getFileSize_eq n]
    have : ((n : ℚ) / 1024 ^ unitIdx n < 1024) := by
      rw [qdiv_lt_iff]
      exact lt_pow_unitIdx_succ h5
    exact this

/-- Witness for C1 at `n = 1536` (spec example: 1536 bytes is 1.5KB). -/
theorem c1_witness :
    (getFileSize 1536).1 < 1024 ∧ unitIdx 1536 ≤ unitIdx 1048576 ∧
    ¬ (((1536 : ℕ) : ℚ) / 1024 ^ 0 < 1024) :=
  ⟨(c1_file_size_formatting 1536).2.2.2.1 (by norm_num),
   (c1_file_size_formatting 1536).2.2.2.2.1 1048576 (by norm_num),
   (c1_file_size_formatting 1536).2.2.1 0 (by decide)⟩

/-! ## Claim C2: architecture labeling -/

/-- Claim C2, counterexample.  `"amo_linux_darwin_amd64"` contains both
`amd64` and `darwin`, but `get_arch_info` returns `"64-bit"`, not
`"Intel"`: the nested `linux` check has priority over `darwin`. -/
theorem c2_counterexample :
    sl "amd64" <:+: sl "amo_linux_darwin_amd64" ∧
    sl "darwin" <:+: sl "amo_linux_darwin_amd64" ∧
    get_arch_info (sl "amo_linux_darwin_amd64") = sl "64-bit" ∧
    sl "64-bit" ≠ sl "Intel" := by decide

/-- Claim C2, amended.  The substring rules are checked in the order
amd64 → arm64 → armv7 with nested platform order linux → darwin → windows,
and the first matching rule wins; therefore: amd64∧linux gives "64-bit"
unconditionally; amd64∧darwin gives "Intel" only when linux is absent;
arm64∧darwin gives "Apple Silicon" only when amd64 and linux are absent;
armv7 gives "ARMv7" (whatever platform substrings are present) only when
amd64 and arm64 are absent; and a filename matching no outer pattern yields
the sentinel "Unknown". -/
theorem c2_arch_labeling (fn : Str) :
    (sl "amd64" <:+: fn → sl "linux" <:+: fn → get_arch_info fn = sl "64-bit") ∧
    (sl "amd64" <:+: fn → ¬ sl "linux" <:+: fn → sl "darwin" <:+: fn →
      get_arch_info fn = sl "Intel") ∧
    (¬ sl "amd64" <:+: fn → sl "arm64" <:+: fn → ¬ sl "linux" <:+: fn →
      sl "darwin" <:+: fn → get_arch_info fn = sl "Apple Silicon") ∧
    (¬ sl "amd64" <:+: fn → ¬ sl "arm64" <:+: fn → sl "armv7" <:+: fn →
      get_arch_info fn = sl "ARMv7") ∧
    (¬ sl "amd64" <:+: fn → ¬ sl "arm64" <:+: fn → ¬ sl "armv7" <:+: fn →
      get_arch_info fn = sl "Unknown") := by
  unfold get_arch_info get_arch_info_core
  refine ⟨?_, ?_, ?_, ?_, ?_⟩ <;> intros <;> simp_all

/-- Witness for C2: a linux/amd64 name labels "64-bit", a darwin/arm64 name
labels "Apple Silicon". -/
theorem c2_witness :
    get_arch_info (sl "amo_linux_amd64") = sl "64-bit" ∧
    get_arch_info (sl "amo_darwin_arm64") = sl "Apple Silicon" :=
  ⟨(c2_arch_labeling (sl "amo_linux_amd64")).1 (by decide) (by decide),
   (c2_arch_labeling (sl "amo_darwin_arm64")).2.2.1 (by decide) (by decide)
     (by decide) (by decide)⟩

/-! ## Claim C3: outer-branch commitment -/

/-- Claim C3, counterexample.  `"amo_amd64"` enters the `amd64` branch and
matches none of linux/darwin/windows, and `"amo_arm64"` enters the `arm64`
branch and matches neither linux nor darwin; in both cases the operation
returns the `"Unknown"` sentinel (a nonempty string), not `None`/empty: in
Python, control falls out of the `if` chain to the final
`return 'Unknown'`. -/
theorem c3_counterexample :
    get_arch_info (sl "amo_amd64") = sl "Unknown" ∧
    get_arch_info (sl "amo_amd64") ≠ [] ∧
    get_arch_info (sl "amo_arm64") = sl "Unknown" ∧
    get_arch_info (sl "amo_arm64") ≠ [] := by decide

/-- Claim C3, amended.  When a filename enters the `amd64` outer branch but
matches none of linux/darwin/windows, or enters the `arm64` outer branch
(no `amd64` substring) but matches neither linux nor darwin, the `if`/`elif`
chain itself produces no value (`none` in the model), and the operation then
falls through to the final `return`, yielding the declared `"Unknown"`
sentinel — not `None`/empty. -/
theorem c3_outer_branch_fallthrough (fn : Str) :
    (sl "amd64" <:+: fn → ¬ sl "linux" <:+: fn → ¬ sl "darwin" <:+: fn →
      ¬ sl "windows" <:+: fn →
      get_arch_info_core fn = none ∧ get_arch_info fn = sl "Unknown") ∧
    (¬ sl "amd64" <:+: fn → sl "arm64" <:+: fn → ¬ sl "linux" <:+: fn →
      ¬ sl "darwin" <:+: fn →
      get_arch_info_core fn = none ∧ get_arch_info fn = sl "Unknown") := by
  constructor
  · intro hamd hlin hdar hwin
    have h1 : get_arch_info_core fn = none := by
      unfold get_arch_info_core
      simp [hamd, hlin, hdar, hwin]
    exact ⟨h1, by unfold get_arch_info; rw [h1]; rfl⟩
  · intro hamd harm hlin hdar
    have h1 : get_arch_info_core fn = none := by
      unfold get_arch_info_core
      simp [hamd, harm, hlin, hdar]
    exact ⟨h1, by unfold get_arch_info; rw [h1]; rfl⟩

/-- Witness for C3 at the filenames `"amo_amd64"` (amd64 branch, no inner
match) and `"amo_arm64"` (arm64 branch, no inner match). -/
theorem c3_witness :
    (get_arch_info_core (sl "amo_amd64") = none ∧
      get_arch_info (sl "amo_amd64") = sl "Unknown") ∧
    (get_arch_info_core (sl "amo_arm64") = none ∧
      get_arch_info (sl "amo_arm64") = sl "Unknown") :=
  ⟨(c3_outer_branch_fallthrough (sl "amo_amd64")).1 (by decide) (by decide)
      (by decide) (by decide),
   (c3_outer_branch_fallthrough (sl "amo_arm64")).2 (by decide) (by decide)
      (by decide) (by decide)⟩

/-! ## Claims C4 and C10: template rendering -/

theorem replaceAll_single_occ (pat rep a b : Str) (hb : borderFree pat)
    (hp : pat ≠ []) (ha : ¬ pat <:+: a) (hbn : ¬ pat <:+: b) :
    replaceAll (a ++ pat ++ b) pat rep = a ++ rep ++ b := by
  rw [replaceAll_append pat rep hp a b (no_occ_glue pat a b hb hp ha)]
  rw [replaceAll_absent pat rep b hp hbn]

/-- Claim C4, counterexample.  In the template
`"{{RELE" ++ "{{TAG_NAME}}" ++ "ASE_NAME}}"` each of the four placeholder
tokens occurs at most once (`{{TAG_NAME}}` once, the others not at all), yet
rendering with all four contents empty yields the empty string — deleting
`{{TAG_NAME}}` joins the surrounding text into a new `{{RELEASE_NAME}}`
occurrence which the second substitution then deletes — instead of the
template with the single token deleted, which would be
`"{{RELE" ++ "ASE_NAME}}"`. -/
theorem c4_counterexample :
    occCount (sl "\x7b\x7bRELE\x7b\x7bTAG_NAME\x7d\x7dASE_NAME\x7d\x7d") tokTag = 1 ∧
    occCount (sl "\x7b\x7bRELE\x7b\x7bTAG_NAME\x7d\x7dASE_NAME\x7d\x7d") tokRel = 0 ∧
    occCount (sl "\x7b\x7bRELE\x7b\x7bTAG_NAME\x7d\x7dASE_NAME\x7d\x7d") tokDl = 0 ∧
    occCount (sl "\x7b\x7bRELE\x7b\x7bTAG_NAME\x7d\x7dASE_NAME\x7d\x7d") tokCk = 0 ∧
    sl "\x7b\x7bRELE\x7b\x7bTAG_NAME\x7d\x7dASE_NAME\x7d\x7d" =
      sl "\x7b\x7bRELE" ++ tokTag ++ sl "ASE_NAME\x7d\x7d" ∧
    render (sl "\x7b\x7bRELE\x7b\x7bTAG_NAME\x7d\x7dASE_NAME\x7d\x7d") [] [] [] [] = [] ∧
    sl "\x7b\x7bRELE" ++ sl "ASE_NAME\x7d\x7d" ≠ [] := by decide

/-- Claim C4, amended.  (a) A template containing none of the four placeholder
tokens renders unchanged whatever the four replacement values are — in
particular any other `{{...}}`-shaped token is left untouched and an absent
placeholder's substitution is a no-op.  (b) For a template
`s0·TAG·s1·REL·s2·DL·s3·CK·s4` containing each token exactly once, rendering
with all four contents empty deletes exactly the four tokens and leaves
every other character unchanged, **provided** the surrounding text neither
contains a token nor combines to form a new token occurrence once an earlier
token is deleted (the hypotheses below; the counterexample shows the claim
fails without this proviso). -/
theorem c4_round_trip :
    (∀ t a b c d : Str, ¬ tokTag <:+: t → ¬ tokRel <:+: t → ¬ tokDl <:+: t →
      ¬ tokCk <:+: t → render t a b c d = t) ∧
    (∀ s0 s1 s2 s3 s4 : Str,
      ¬ tokTag <:+: s0 →
      ¬ tokTag <:+: (s1 ++ tokRel ++ s2 ++ tokDl ++ s3 ++ tokCk ++ s4) →
      ¬ tokRel <:+: (s0 ++ s1) →
      ¬ tokRel <:+: (s2 ++ tokDl ++ s3 ++ tokCk ++ s4) →
      ¬ tokDl <:+: (s0 ++ s1 ++ s2) →
      ¬ tokDl <:+: (s3 ++ tokCk ++ s4) →
      ¬ tokCk <:+: (s0 ++ s1 ++ s2 ++ s3) →
      ¬ tokCk <:+: s4 →
      render (s0 ++ tokTag ++ s1 ++ tokRel ++ s2 ++ tokDl ++ s3 ++ tokCk ++ s4)
        [] [] [] [] = s0 ++ s1 ++ s2 ++ s3 ++ s4) := by
  constructor
  · intro t a b c d h1 h2 h3 h4
    unfold render
    rw [replaceAll_absent tokTag a t (by decide) h1,
      replaceAll_absent tokRel b t (by decide) h2,
      replaceAll_absent tokDl c t (by decide) h3,
      replaceAll_absent tokCk d t (by decide) h4]
  · intro s0 s1 s2 s3 s4 h1a h1b h2a h2b h3a h3b h4a h4b
    unfold render
    rw [show s0 ++ tokTag ++ s1 ++ tokRel ++ s2 ++ tokDl ++ s3 ++ tokCk ++ s4
      = s0 ++ tokTag ++ (s1 ++ tokRel ++ s2 ++ tokDl ++ s3 ++ tokCk ++ s4) by
        simp [List.append_assoc]]
    rw [replaceAll_single_occ tokTag [] s0 _ (by decide) (by decide) h1a h1b]
    rw [show s0 ++ [] ++ (s1 ++ tokRel ++ s2 ++ tokDl ++ s3 ++ tokCk ++ s4)
      = (s0 ++ s1) ++ tokRel ++ (s2 ++ tokDl ++ s3 ++ tokCk ++ s4) by
        simp [List.append_assoc]]
    rw [replaceAll_single_occ tokRel [] (s0 ++ s1) _ (by decide) (by decide) h2a h2b]
    rw [show (s0 ++ s1) ++ [] ++ (s2 ++ tokDl ++ s3 ++ tokCk ++ s4)
      = (s0 ++ s1 ++ s2) ++ tokDl ++ (s3 ++ tokCk ++ s4) by simp [List.append_assoc]]
    rw [replaceAll_single_occ tokDl [] (s0 ++ s1 ++ s2) _ (by decide) (by decide) h3a h3b]
    rw [show (s0 ++ s1 ++ s2) ++ [] ++ (s3 ++ tokCk ++ s4)
      = (s0 ++ s1 ++ s2 ++ s3) ++ tokCk ++ s4 by simp [List.append_assoc]]
    rw [replaceAll_single_occ tokCk [] (s0 ++ s1 ++ s2 ++ s3) s4 (by decide) (by decide)
      h4a h4b]
    simp [List.append_assoc]

/-- Witness for C4: a template holding only a foreign token is unchanged,
and a well-separated template with all four tokens renders to its glue. -/
theorem c4_witness :
    render (sl "<p>\x7b\x7bOTHER\x7d\x7d</p>") (sl "v1") (sl "R") (sl "D") (sl "C") =
      sl "<p>\x7b\x7bOTHER\x7d\x7d</p>" ∧
    render (sl "A" ++ tokTag ++ sl "B" ++ tokRel ++ sl "C" ++ tokDl ++ sl "D" ++
        tokCk ++ sl "E") [] [] [] [] = sl "A" ++ sl "B" ++ sl "C" ++ sl "D" ++ sl "E" :=
  ⟨c4_round_trip.1 (sl "<p>\x7b\x7bOTHER\x7d\x7d</p>") (sl "v1") (sl "R") (sl "D") (sl "C")
    (by decide) (by decide) (by decide) (by decide),
   c4_round_trip.2 (sl "A") (sl "B") (sl "C") (sl "D") (sl "E") (by decide) (by decide)
    (by decide) (by decide) (by decide) (by decide) (by decide) (by decide)⟩

/-- Claim C10.  The four placeholder substitutions are applied sequentially to
the whole content in the fixed source order TAG_NAME, RELEASE_NAME,
DOWNLOAD_SECTIONS, CHECKSUMS; consequently an injected value is itself
subject to later substitutions: when the tag-name value is the literal token
`{{CHECKSUMS}}`, the rendered page contains the checksum-section content at
that position instead of the literal token. -/
theorem c10_sequential_substitution :
    (∀ t a b c d : Str, render t a b c d =
      replaceAll (replaceAll (replaceAll (replaceAll t tokTag a) tokRel b) tokDl c)
        tokCk d) ∧
    (∀ pre post rel dl ck : Str,
      ¬ tokTag <:+: pre → ¬ tokTag <:+: post →
      ¬ tokRel <:+: (pre ++ tokCk ++ post) → ¬ tokDl <:+: (pre ++ tokCk ++ post) →
      ¬ tokCk <:+: pre → ¬ tokCk <:+: post →
      render (pre ++ tokTag ++ post) tokCk rel dl ck = pre ++ ck ++ post) := by
  constructor
  · intro t a b c d
    rfl
  · intro pre post rel dl ck h1 h2 h3 h4 h5 h6
    unfold render
    rw [replaceAll_single_occ tokTag tokCk pre post (by decide) (by decide) h1 h2]
    rw [replaceAll_absent tokRel rel _ (by decide) h3]
    rw [replaceAll_absent tokDl dl _ (by decide) h4]
    rw [replaceAll_single_occ tokCk ck pre post (by decide) (by decide) h5 h6]

/-- Witness for C10: tag value `{{CHECKSUMS}}` in template `X{{TAG_NAME}}Y`
renders to `X` ++ checksum content ++ `Y`. -/
theorem c10_witness :
    render (sl "X" ++ tokTag ++ sl "Y") tokCk [] [] (sl "HASHES") =
      sl "X" ++ sl "HASHES" ++ sl "Y" :=
  c10_sequential_substitution.2 (sl "X") (sl "Y") [] [] (sl "HASHES")
    (by decide) (by decide) (by decide) (by decide) (by decide) (by decide)

/-! ## Claims C5 and C6: checksum section -/

theorem generate_checksums_section_eq (d : Dir) :
    generate_checksums_section d = ((shaFiles d).map (checksumEntry d)).flatten := by
  unfold generate_checksums_section
  by_cases h : shaFiles d = []
  · rw [if_pos h, h]
    rfl
  · rw [if_neg h, foldl_append_eq (checksumEntry d) (shaFiles d) []]
    simp

/-- Directory used by the C5 counterexample: the checksum file
`a.sha256.tar.sha256` sits next to the artifact `a.sha256.tar` (the name
obtained by stripping only the suffix). -/
def d5 : Dir :=
  ⟨[sl "a.sha256.tar", sl "a.sha256.tar.sha256"], fun _ => none,
    fun f => if f = sl "a.sha256.tar.sha256" then some (sl "abc123 x") else none⟩

/-- Claim C5, counterexample.  `'a.sha256.tar.sha256'.replace('.sha256', '')`
removes *every* occurrence, giving `a.tar` — not the suffix-stripped
`a.sha256.tar` — so even though the artifact `a.sha256.tar` exists and the
checksum file is readable, the artifact check fails and the checksum section
omits the entry. -/
theorem c5_counterexample :
    replaceAll (sl "a.sha256.tar.sha256") (sl ".sha256") [] = sl "a.tar" ∧
    sl "a.tar" ≠ sl "a.sha256.tar" ∧
    sl "a.sha256.tar" ∈ d5.files ∧
    (d5.content (sl "a.sha256.tar.sha256")).isSome = true ∧
    generate_checksums_section d5 = [] := by decide

/-- Claim C5, amended.  The candidate artifact name is the checksum filename
with **every** occurrence of `.sha256` removed (this coincides with
suffix-stripping exactly when the suffix is the only occurrence, as the
third part states); an entry whose candidate name is not an existing file
contributes nothing, and the rendered section is the concatenation of the
per-checksum-file entries. -/
theorem c5_checksum_candidate (d : Dir) (sha a : Str) :
    (generate_checksums_section d = ((shaFiles d).map (checksumEntry d)).flatten) ∧
    (replaceAll sha (sl ".sha256") [] ∉ d.files → checksumEntry d sha = []) ∧
    (sha = a ++ sl ".sha256" → ¬ sl ".sha256" <:+: a →
      replaceAll sha (sl ".sha256") [] = a) := by
  refine ⟨generate_checksums_section_eq d, ?_, ?_⟩
  · intro h
    simp only [checksumEntry]
    rw [if_neg h]
  · intro hsha hna
    subst hsha
    have he : a ++ sl ".sha256" = a ++ sl ".sha256" ++ [] := by simp
    rw [he, replaceAll_single_occ (sl ".sha256") [] a [] (by decide) (by decide) hna
      (by decide)]
    simp

/-- Witness for C5: an entry with no matching artifact contributes nothing,
and for a well-formed name the candidate equals the suffix-stripped name. -/
theorem c5_witness :
    checksumEntry d5 (sl "b.sha256") = [] ∧
    replaceAll (sl "amo.sha256") (sl ".sha256") [] = sl "amo" :=
  ⟨(c5_checksum_candidate d5 (sl "b.sha256") []).2.1 (by decide),
   (c5_checksum_candidate d5 (sl "amo.sha256") (sl "amo")).2.2 (by decide) (by decide)⟩

/-- Directory used by the C6 counterexample: the checksum file's first line
is blank; the hash sits on the second line. -/
def d6 : Dir :=
  ⟨[sl "amo", sl "amo.sha256"], fun _ => none,
    fun f => if f = sl "amo.sha256" then some (sl "\nabcd amo") else none⟩

/-- Claim C6, counterexample.  With checksum-file content `"\nabcd amo"` the
first *line* contains no whitespace-delimited token, yet the entry is not
skipped: the code reads the whole file and takes the first token of the
entire content, rendering the hash `abcd` from the second line. -/
theorem c6_counterexample :
    pySplit (firstLine (sl "\nabcd amo")) = [] ∧
    generate_checksums_section d6 = checksumHTML (sl "amo") (sl "abcd") := by decide

/-- Claim C6, amended.  For a checksum file whose artifact exists, the hash
rendered is the first whitespace-delimited token of the file's **entire
content** (equivalently, of its first non-blank line — not of the first
line); a read error or a token-less content skips that single entry; and the
section is the concatenation of independent per-file entries, so a per-file
failure never aborts or empties the whole section. -/
theorem c6_checksum_parsing (d : Dir) (sha : Str) :
    (generate_checksums_section d = ((shaFiles d).map (checksumEntry d)).flatten) ∧
    (d.content sha = none → checksumEntry d sha = []) ∧
    (∀ txt, d.content sha = some txt → pySplit (pyStrip txt) = [] →
      checksumEntry d sha = []) ∧
    (∀ txt t ts, d.content sha = some txt → pySplit (pyStrip txt) = t :: ts →
      replaceAll sha (sl ".sha256") [] ∈ d.files →
      checksumEntry d sha = checksumHTML (replaceAll sha (sl ".sha256") []) t) := by
  refine ⟨generate_checksums_section_eq d, ?_, ?_, ?_⟩
  · intro h
    simp [checksumEntry, h]
  · intro txt h h0
    simp [checksumEntry, h, h0]
  · intro txt t ts h hsplit hmem
    simp only [checksumEntry]
    rw [if_pos hmem, h]
    simp [hsplit]

/-- Directory used by the C6 witness: one checksum file reads fine, a second
one fails to read; the failing entry is skipped while the good one renders. -/
def d6w : Dir :=
  ⟨[sl "amo", sl "amo.sha256", sl "bad", sl "bad.sha256"], fun _ => none,
    fun f => if f = sl "amo.sha256" then some (sl "abcd amo") else none⟩

/-- Witness for C6: the unreadable entry contributes nothing, the readable
entry renders the first token of its content, and the section is the
per-file concatenation. -/
theorem c6_witness :
    checksumEntry d6w (sl "bad.sha256") = [] ∧
    checksumEntry d6w (sl "amo.sha256") = checksumHTML (sl "amo") (sl "abcd") ∧
    generate_checksums_section d6w = ((shaFiles d6w).map (checksumEntry d6w)).flatten :=
  ⟨(c6_checksum_parsing d6w (sl "bad.sha256")).2.1 (by decide),
   by
    have := (c6_checksum_parsing d6w (sl "amo.sha256")).2.2.2 (sl "abcd amo")
      (sl "abcd") [sl "amo"] (by decide) (by decide) (by decide)
    simpa using this,
   (c6_checksum_parsing d6w (sl "amo.sha256")).1⟩

/-! ## Claim C7: top-level error handling -/

/-- World used by the C7 counterexample: correct argument count, but the
template read fails with an error other than `FileNotFoundError` (for
instance a permission error on an existing file). -/
def w7 : World :=
  ⟨[sl "generate-download-page.py", sl "template.html", sl "v1.0", sl "First Release"],
    ReadResult.otherError, ⟨[], fun _ => none, fun _ => none⟩⟩

/-- Claim C7, counterexample.  Only `FileNotFoundError` is caught around the
template read: any other read failure on an unreadable template escapes
`main` as an uncaught exception instead of being reported and converted to
a clean non-zero exit — so "no exception propagates past the top-level
invocation in any run" fails. -/
theorem c7_counterexample :
    pymain w7 = Outcome.uncaught ∧
    pymain w7 ≠ Outcome.exits 1 none ∧
    pymain w7 ≠ Outcome.exits 0 none := by decide

/-- Claim C7, amended.  If the argument count differs from exactly three
positional values (`len(sys.argv) != 4`), the program prints usage and exits
with code 1 before writing any output.  A *missing* template file
(`FileNotFoundError`) is reported and exits with code 1 with no output
written.  But only `FileNotFoundError` is caught: an existing-yet-unreadable
template makes the exception propagate past the top-level invocation.  On
success the exit code is 0 and `index.html` receives the rendered page. -/
theorem c7_top_level (w : World) :
    (w.argv.length ≠ 4 → pymain w = Outcome.exits 1 none) ∧
    (w.argv.length = 4 → w.template = ReadResult.fileNotFound →
      pymain w = Outcome.exits 1 none) ∧
    (w.argv.length = 4 → w.template = ReadResult.otherError →
      pymain w = Outcome.uncaught) ∧
    (∀ c, w.argv.length = 4 → w.template = ReadResult.ok c →
      pymain w = Outcome.exits 0 (some (sl "index.html",
        render c (w.argv.getD 2 []) (w.argv.getD 3 [])
          (download_sections w.dir) (generate_checksums_section w.dir)))) := by
  refine ⟨?_, ?_, ?_, ?_⟩
  · intro h
    simp [pymain, h]
  · intro h4 ht
    simp [pymain, h4, ht]
  · intro h4 ht
    simp [pymain, h4, ht]
  · intro c h4 ht
    simp [pymain, h4, ht]

/-- World used by the C7 witness success case: a token-free template and an
empty working directory. -/
def w7ok : World :=
  ⟨[sl "prog", sl "t.html", sl "v1", sl "R"], ReadResult.ok (sl "page"),
    ⟨[], fun _ => none, fun _ => none⟩⟩

/-- World used by the C7 witness usage case: a single argument. -/
def w7usage : World :=
  ⟨[sl "prog"], ReadResult.fileNotFound, ⟨[], fun _ => none, fun _ => none⟩⟩

/-- Witness for C7: the usage error exits 1 writing nothing; the successful
run exits 0 writing the rendered page to `index.html`. -/
theorem c7_witness :
    pymain w7usage = Outcome.exits 1 none ∧
    pymain w7ok = Outcome.exits 0 (some (sl "index.html",
      render (sl "page") (sl "v1") (sl "R") (download_sections w7ok.dir)
        (generate_checksums_section w7ok.dir))) := by
  refine ⟨(c7_top_level w7usage).1 (by decide), ?_⟩
  have h := (c7_top_level w7ok).2.2.2 (sl "page") (by decide) (by decide)
  simpa using h

/-! ## Claim C8: platform section rendering -/

theorem generate_platform_section_eq (d : Dir) (name icon pre suf : Str) :
    generate_platform_section d name icon pre suf =
      if platformFiles d pre suf = [] then []
      else platformHeader name icon ++
        ((platformFiles d pre suf).map (fileInfoHTML d)).flatten ++ platformFooter := by
  unfold generate_platform_section
  by_cases h : platformFiles d pre suf = []
  · rw [if_pos h, if_pos h]
  · rw [if_neg h, if_neg h, foldl_append_eq (fileInfoHTML d) (platformFiles d pre suf)
      (platformHeader name icon)]

/-- Claim C8.  A platform whose enumeration yields zero matching regular
non-`.sha256` files renders the empty string (no card at all); a non-empty
match set renders exactly one card: the header with icon and name, then, for
each file in enumeration order, a download link labelled with the bare
filename and a caption combining the architecture label and the formatted
size, then the closing tag. -/
theorem c8_platform_section (d : Dir) (name icon pre suf : Str) :
    (platformFiles d pre suf = [] →
      generate_platform_section d name icon pre suf = []) ∧
    (platformFiles d pre suf ≠ [] →
      generate_platform_section d name icon pre suf =
        platformHeader name icon ++
          ((platformFiles d pre suf).map (fileInfoHTML d)).flatten ++ platformFooter) ∧
    (∀ f, fileInfoHTML d f =
      sl "\n                    <a href=\"" ++ basename f ++
        sl "\" class=\"download-link\">" ++ basename f ++
        sl "</a>\n                    <div class=\"file-info\">" ++
        get_arch_info (basename f) ++ sl " • " ++
        get_file_size_str d f ++ sl "</div>") := by
  refine ⟨?_, ?_, fun f => rfl⟩
  · intro h
    rw [generate_platform_section_eq, if_pos h]
  · intro h
    rw [generate_platform_section_eq, if_neg h]

/-- Directory used by the C8 witness: one 10-byte linux/amd64 artifact. -/
def d8 : Dir :=
  ⟨[sl "amo_linux_amd64"],
    fun f => if f = sl "amo_linux_amd64" then some 10 else none, fun _ => none⟩

/-- Witness for C8: the linux pattern matches one file and renders the full
card (whose caption shows `64-bit • 10.0B`); the darwin pattern matches
nothing and renders the empty string. -/
theorem c8_witness :
    generate_platform_section d8 (sl "Linux") (sl "🐧") (sl "amo_linux_") [] =
      platformHeader (sl "Linux") (sl "🐧") ++
        ((platformFiles d8 (sl "amo_linux_") []).map (fileInfoHTML d8)).flatten ++
        platformFooter ∧
    generate_platform_section d8 (sl "macOS") (sl "🍎") (sl "amo_darwin_") [] = [] ∧
    get_arch_info (sl "amo_linux_amd64") = sl "64-bit" ∧
    get_file_size_str d8 (sl "amo_linux_amd64") = sl "10.0B" := by
  refine ⟨(c8_platform_section d8 (sl "Linux") (sl "🐧") (sl "amo_linux_") []).2.1
      (by decide),
    (c8_platform_section d8 (sl "macOS") (sl "🍎") (sl "amo_darwin_") []).1 (by decide),
    by decide, ?_⟩
  show get_file_size_str d8 (sl "amo_linux_amd64") = sl "10.0B"
  have hsize : d8.size (sl "amo_linux_amd64") = some 10 := by decide
  unfold get_file_size_str
  rw [hsize]
  show formatSize 10 = sl "10.0B"
  rw [formatSize_lt1024 10 (by norm_num)]
  decide

/-! ## Claim C9: locale refinement -/

/-- Claim C9.  Both scripts are instances of one locale-parameterized
generator: for every world the default-locale script equals the generator at
the English locale and the second-locale script equals it at the Chinese
locale, where a locale consists only of the `64-bit` label, the two
`unknown` sentinels, and the output path.  The two instantiations write to
different output paths (`index.html` versus `zh/index.html`), and the
checksum-section code is literally shared (identical on every directory) —
so glob patterns, filtering, ordering, checksum extraction and placeholder
substitution agree, and the rendered pages differ only in the locale
microcopy. -/
theorem c9_locale_refinement :
    (∀ w, pymain w = pymain_loc enLocale w) ∧
    (∀ w, pymain_zh w = pymain_loc zhLocale w) ∧
    enLocale.outPath = sl "index.html" ∧
    zhLocale.outPath = sl "zh/index.html" ∧
    enLocale.outPath ≠ zhLocale.outPath ∧
    (∀ d, generate_checksums_section_zh d = generate_checksums_section d) :=
  ⟨fun _ => rfl, fun _ => rfl, rfl, rfl, by decide, fun _ => rfl⟩

/-- Witness for C9: the refinement instantiated at a concrete world. -/
theorem c9_witness : pymain w7ok = pymain_loc enLocale w7ok ∧
    pymain_zh w7ok = pymain_loc zhLocale w7ok :=
  ⟨c9_locale_refinement.1 w7ok, c9_locale_refinement.2.1 w7ok⟩
